import Mathlib

/-!
Shallow embedding of the hrteam marketplace application (src/main.py,
src/models.py) for checking the natural-language specification.

Conventions of the embedding:
* Database tables are Lean lists of records; the SQLAlchemy `uuid` primary
  keys are plain strings, and handlers that look a row up by id model the
  ORM `.first()` call with `List.find?`.
* Timestamps (`datetime.utcnow()`) are an explicit `now : Nat` parameter;
  the `strftime`-formatted transaction stamp is modelled as `toString now`.
* Python `float` money amounts are modelled as exact rationals `ℚ`
  (the constants 3000.0 and 0.7 are exactly representable in ℚ, and every
  claim under check only compares prices, which the rounding of IEEE
  doubles preserves at the claimed inputs).
* FastAPI `HTTPException(status_code=c)` aborts the handler before any
  mutation is committed; a handler that can raise is modelled as an
  `Except Nat` value whose `.error c` carries the HTTP status code and
  returns no new state (the old state is unchanged).
* `create_notification` inserts one row whose `id` column is a fresh uuid;
  the fresh id is irrelevant to every claim and is modelled as `""`.
-/

/-! ## Enumerations (src/models.py) -/

inductive UserType where
  | EMPLOYER | RECRUITER | ADMIN
deriving DecidableEq, Repr

inductive JobStatus where
  | DRAFT | PENDING | OPEN | PAUSED | IN_PROGRESS | COMPLETED | ARCHIVED | REJECTED
deriving DecidableEq, Repr

inductive ApplicationStatus where
  | PENDING | SELECTED | WORKING | COMPLETED | REJECTED
deriving DecidableEq, Repr

inductive PaymentStatus where
  | PENDING | PAID | FAILED | REFUNDED
deriving DecidableEq, Repr

inductive NotificationType where
  | NEW_APPLICATION | NEW_JOB | NEW_MESSAGE | JOB_STATUS_CHANGE
  | APPLICATION_STATUS_CHANGE | NEW_RATING | JOB_APPROVED | JOB_REJECTED
  | PAYMENT_SUCCESS
deriving DecidableEq, Repr

/-- The `.value` string of the Python enum `JobStatus`. -/
def JobStatus.value : JobStatus → String
  | .DRAFT => "draft"
  | .PENDING => "pending"
  | .OPEN => "open"
  | .PAUSED => "paused"
  | .IN_PROGRESS => "in_progress"
  | .COMPLETED => "completed"
  | .ARCHIVED => "archived"
  | .REJECTED => "rejected"

/-- The `.value` string of the Python enum `ApplicationStatus`. -/
def ApplicationStatus.value : ApplicationStatus → String
  | .PENDING => "pending"
  | .SELECTED => "selected"
  | .WORKING => "working"
  | .COMPLETED => "completed"
  | .REJECTED => "rejected"

/-! ## Records (claim-relevant columns of src/models.py) -/

structure User where
  id : String
  email : String
  name : String
  user_type : UserType
deriving DecidableEq, Repr

structure Job where
  id : String
  employer_id : String
  moderator_id : Option String
  title : String
  salary_min : Int
  salary_max : Int
  max_applications : Nat
  status : JobStatus
  status_reason : String
  moderated_at : Option Nat
  moderation_comment : String
  avg_time_to_fill : Option Nat
  filled_at : Option Nat
  created_at : Nat
deriving DecidableEq, Repr

structure Payment where
  id : String
  job_id : String
  employer_id : String
  amount : ℚ
  status : PaymentStatus
  payment_method : Option String
  transaction_id : Option String
  paid_at : Option Nat
deriving DecidableEq, Repr

structure Application where
  id : String
  job_id : String
  recruiter_id : String
  cover_letter : String
  status : ApplicationStatus
deriving DecidableEq, Repr

structure Notification where
  id : String
  user_id : String
  type : NotificationType
  title : String
  message : String
  is_read : Bool
  related_job_id : Option String
  related_user_id : Option String
  related_application_id : Option String
  related_payment_id : Option String
deriving DecidableEq, Repr

/-- `create_notification` (src/main.py:112-124): inserts one row,
`is_read` defaulting to false. -/
def create_notification (user_id : String) (ntype : NotificationType)
    (title message : String)
    (related_job_id related_user_id related_application_id related_payment_id :
      Option String) : Notification :=
  { id := ""
    user_id := user_id
    type := ntype
    title := title
    message := message
    is_read := false
    related_job_id := related_job_id
    related_user_id := related_user_id
    related_application_id := related_application_id
    related_payment_id := related_payment_id }

/-- Python single-quoting used by the f-strings of the handlers:
`pyq s` is the string `s` wrapped in ASCII apostrophes. -/
def pyq (s : String) : String := "\x27" ++ s ++ "\x27"

/-! ## Pricing (src/main.py:36-56) -/

def PRICE_MULTIPLIER : ℚ := 7 / 10

def MIN_POSTING_PRICE : ℚ := 3000

/-- `calculate_posting_price` (src/main.py:42-56).  The `multiplier`
keyword argument always takes its default `PRICE_MULTIPLIER` at every call
site, so it is inlined here. -/
def calculate_posting_price (salary_min salary_max : Int) : ℚ :=
  if salary_min < 0 ∨ salary_max < 0 then
    MIN_POSTING_PRICE
  else if salary_min = 0 ∧ salary_max = 0 then
    MIN_POSTING_PRICE
  else
    max ((((salary_min : ℚ) + (salary_max : ℚ)) / 2) * PRICE_MULTIPLIER)
      MIN_POSTING_PRICE

lemma min_price_le_calculate_posting_price (a b : Int) :
    MIN_POSTING_PRICE ≤ calculate_posting_price a b := by
  unfold calculate_posting_price
  split_ifs <;> simp [le_max_right, le_refl]

/-! ## Application-count queries shared by the handlers -/

/-- `Application.status.in_([SELECTED, WORKING])`. -/
def isSelectedOrWorking (s : ApplicationStatus) : Bool :=
  s == ApplicationStatus.SELECTED || s == ApplicationStatus.WORKING

/-- Count of applications of a job (src/main.py:136, 1024, 1087). -/
def applicationsCount (apps : List Application) (jid : String) : Nat :=
  (apps.filter (fun a => a.job_id == jid)).length

/-- Count of applications of a job in `{selected, working}`
(src/main.py:137-140, 1227-1230). -/
def selectedCount (apps : List Application) (jid : String) : Nat :=
  apps.countP (fun a => a.job_id == jid && isSelectedOrWorking a.status)

/-- Count of completed applications of a job (src/main.py:141-144). -/
def completedCount (apps : List Application) (jid : String) : Nat :=
  apps.countP (fun a => a.job_id == jid && a.status == ApplicationStatus.COMPLETED)

/-- Count of applications of a job in `{selected, working}` other than a
given one — the guard count of src/main.py:1211-1215. -/
def selectedOthersCount (apps : List Application) (jid aid : String) : Nat :=
  apps.countP
    (fun a => a.job_id == jid && isSelectedOrWorking a.status && a.id != aid)

/-- The ORM row update: replace every row carrying the id of `j`. -/
def updateJob (jobs : List Job) (j : Job) : List Job :=
  jobs.map (fun x => if x.id == j.id then j else x)

/-- The ORM row update for payments. -/
def updatePayment (payments : List Payment) (p : Payment) : List Payment :=
  payments.map (fun x => if x.id == p.id then p else x)

/-! ## Job lifecycle helpers (src/main.py:126-171) -/

/-- `calculate_job_analytics` (src/main.py:126-132): on a completed job
without analytics, stamp `avg_time_to_fill` (in days) and `filled_at`. -/
def calculate_job_analytics (now : Nat) (job : Job) : Job :=
  if job.status == JobStatus.COMPLETED && job.avg_time_to_fill == none then
    { job with avg_time_to_fill := some ((now - job.created_at) / 86400)
               filled_at := some now }
  else job

/-- The status recomputation of `auto_update_job_status`
(src/main.py:146-157). -/
def auto_update_job_status_job (now : Nat) (job : Job)
    (apps : List Application) : Job :=
  if completedCount apps job.id > 0 && job.status != JobStatus.COMPLETED then
    calculate_job_analytics now
      { job with status := JobStatus.COMPLETED
                 status_reason := "Найден подходящий кандидат" }
  else if selectedCount apps job.id > 0 && job.status == JobStatus.OPEN then
    { job with status := JobStatus.IN_PROGRESS
               status_reason := "Начата работа с рекрутерами" }
  else if applicationsCount apps job.id ≥ job.max_applications &&
          job.status == JobStatus.OPEN then
    { job with status := JobStatus.IN_PROGRESS
               status_reason := "Достигнут лимит откликов" }
  else job

/-- `auto_update_job_status` (src/main.py:134-171): recompute the job
status from the application counts and fan a `JOB_STATUS_CHANGE`
notification out to every applicant when the stored status changed. -/
def auto_update_job_status (now : Nat) (job : Job) (apps : List Application) :
    Job × List Notification :=
  let job' := auto_update_job_status_job now job apps
  let notifs :=
    if job.status != job'.status then
      (apps.filter (fun a => a.job_id == job.id)).map (fun a =>
        create_notification a.recruiter_id NotificationType.JOB_STATUS_CHANGE
          ("Изменен статус вакансии " ++ pyq job.title)
          ("Статус изменен с " ++ pyq job.status.value ++ " на " ++
            pyq job'.status.value ++ ". Причина: " ++ job'.status_reason)
          (some job.id) none none none)
    else []
  (job', notifs)

/-! ## Admin moderation (src/main.py:476-519) -/

/-- `moderate_job` (src/main.py:476-519).  The `get_admin_user` dependency
rejects non-admin callers with HTTP 403 (src/main.py:94-98). -/
def moderate_job (now : Nat) (user : User) (jobs : List Job) (job_id : String)
    (action comment : String) :
    Except Nat (List Job × List Notification × String) :=
  if user.user_type ≠ UserType.ADMIN then .error 403
  else
    match jobs.find? (fun j => j.id == job_id) with
    | none => .error 404
    | some job =>
      if action == "approve" then
        let job' := { job with
          status := JobStatus.OPEN
          moderator_id := some user.id
          moderated_at := some now
          moderation_comment := if comment ≠ "" then comment else "Вакансия одобрена" }
        let n := create_notification job.employer_id NotificationType.JOB_APPROVED
          ("Вакансия " ++ pyq job.title ++ " одобрена!")
          "Ваша вакансия прошла модерацию и опубликована на платформе."
          (some job.id) none none none
        .ok (updateJob jobs job', [n], "/admin/jobs")
      else if action == "reject" then
        let job' := { job with
          status := JobStatus.REJECTED
          moderator_id := some user.id
          moderated_at := some now
          moderation_comment := if comment ≠ "" then comment else "Вакансия отклонена" }
        let n := create_notification job.employer_id NotificationType.JOB_REJECTED
          ("Вакансия " ++ pyq job.title ++ " отклонена")
          ("Ваша вакансия не прошла модерацию. Причина: " ++ comment)
          (some job.id) none none none
        .ok (updateJob jobs job', [n], "/admin/jobs")
      else
        .ok (jobs, [], "/admin/jobs")

/-! ## Payment flow (src/main.py:635-682) -/

/-- `process_job_payment` (src/main.py:635-682): mark the payment paid,
stamp a transaction id from the timestamp, push the job to `pending`, and
notify the employer plus every admin. -/
def process_job_payment (now : Nat) (user : User) (users : List User)
    (jobs : List Job) (payments : List Payment) (job_id : String)
    (payment_method : String) :
    Except Nat (List Job × List Payment × List Notification × String) :=
  match jobs.find? (fun j => j.id == job_id && j.employer_id == user.id) with
  | none => .error 404
  | some job =>
    match payments.find? (fun p => p.job_id == job_id) with
    | none => .error 404
    | some payment =>
      let payment' := { payment with
        status := PaymentStatus.PAID
        payment_method := some payment_method
        paid_at := some now
        transaction_id := some ("TXN_" ++ toString now) }
      let job' := { job with
        status := JobStatus.PENDING
        status_reason := "Ожидает модерации" }
      let successNotif := create_notification user.id NotificationType.PAYMENT_SUCCESS
        "Оплата успешно обработана"
        ("Вакансия " ++ pyq job.title ++ " оплачена и отправлена на модерацию.")
        (some job.id) none none (some payment.id)
      let admins := users.filter (fun u => u.user_type == UserType.ADMIN)
      let adminNotifs := admins.map (fun a =>
        create_notification a.id NotificationType.NEW_JOB
          "Новая вакансия на модерацию"
          ("Работодатель " ++ user.name ++ " создал вакансию " ++ pyq job.title ++
            " и ожидает модерации.")
          (some job.id) (some user.id) none none)
      .ok (updateJob jobs job', updatePayment payments payment',
           successNotif :: adminNotifs, "/my/jobs?payment_success=1")

/-! ## Recruiter application (src/main.py:1006-1066) -/

/-- The three response shapes a handler returns without raising. -/
inductive HandlerResponse where
  | httpError (code : Nat)
  | redirect (url : String)
  | template (error : String)
deriving DecidableEq, Repr

/-- Human-readable new-status texts of src/main.py:1251-1257. -/
def status_messages : ApplicationStatus → String
  | .PENDING => "на рассмотрении"
  | .SELECTED => "выбран для работы"
  | .WORKING => "работает над вакансией"
  | .COMPLETED => "успешно завершил работу"
  | .REJECTED => "отклонен"

/-- `post_apply` (src/main.py:1006-1066): guards (role, existence, open
status, application cap, duplicate application) and then insertion of a
pending application, the automatic job-status update, and the
new-application notification to the employer.  `new_id` is the fresh uuid
of the inserted row. -/
def post_apply (now : Nat) (user : User) (jobs : List Job)
    (apps : List Application) (job_id cover_letter new_id : String) :
    HandlerResponse × List Job × List Application × List Notification :=
  if user.user_type ≠ UserType.RECRUITER then
    (.httpError 403, jobs, apps, [])
  else
    match jobs.find? (fun j => j.id == job_id) with
    | none => (.redirect "/jobs", jobs, apps, [])
    | some job =>
      if job.status ≠ JobStatus.OPEN then
        (.redirect ("/jobs/" ++ job_id ++ "?error=job_not_open"), jobs, apps, [])
      else if applicationsCount apps job_id ≥ job.max_applications then
        (.redirect ("/jobs/" ++ job_id ++ "?error=max_applications"), jobs, apps, [])
      else if (apps.find? (fun a =>
            a.job_id == job_id && a.recruiter_id == user.id)).isSome then
        (.template "Вы уже откликнулись на эту вакансию!", jobs, apps, [])
      else
        let application : Application :=
          { id := new_id, job_id := job_id, recruiter_id := user.id
            cover_letter := cover_letter, status := ApplicationStatus.PENDING }
        let apps' := apps ++ [application]
        let (job', autoNotifs) := auto_update_job_status now job apps'
        let n := create_notification job.employer_id NotificationType.NEW_APPLICATION
          ("Новый отклик на " ++ pyq job.title)
          ("Рекрутер " ++ user.name ++ " откликнулся на вашу вакансию")
          (some job_id) (some user.id) (some application.id) none
        (.redirect ("/jobs/" ++ job_id ++ "?applied=success"),
         updateJob jobs job', apps', autoNotifs ++ [n])

/-! ## Manual job status change (src/main.py:1157-1190) -/

/-- `change_job_status` (src/main.py:1157-1190): the employer sets an
arbitrary new status with a free-text reason; one `JOB_STATUS_CHANGE`
notification is created per application of the job, unconditionally. -/
def change_job_status (now : Nat) (user : User) (jobs : List Job)
    (apps : List Application) (job_id : String) (new_status : JobStatus)
    (reason : String) :
    Except Nat (List Job × List Notification × String) :=
  match jobs.find? (fun j => j.id == job_id && j.employer_id == user.id) with
  | none => .error 404
  | some job =>
    let job1 := { job with
      status := new_status
      status_reason := if reason ≠ "" then reason else "Изменено работодателем" }
    let job2 := if new_status = JobStatus.COMPLETED then
        calculate_job_analytics now job1
      else job1
    let notifs := (apps.filter (fun a => a.job_id == job_id)).map (fun a =>
      create_notification a.recruiter_id NotificationType.JOB_STATUS_CHANGE
        ("Изменен статус вакансии " ++ pyq job.title)
        ("Статус изменен с " ++ pyq job.status.value ++ " на " ++
          pyq new_status.value ++ ". Причина: " ++ job2.status_reason)
        (some job_id) (some user.id) none none)
    .ok (updateJob jobs job2, notifs, "/my/jobs")

/-! ## Application status change (src/main.py:1192-1270) -/

/-- The job-completion rule of `change_application_status`
(src/main.py:1226-1241), applied to the selected/working count computed
after the application update. -/
def jobCompletionStep (now : Nat) (job : Job) (selected_count_after : Nat) : Job :=
  if selected_count_after ≥ 3 && job.status != JobStatus.COMPLETED then
    calculate_job_analytics now
      { job with status := JobStatus.COMPLETED
                 status_reason := "Найдены все 3 рекрутера" }
  else if selected_count_after > 0 && job.status == JobStatus.OPEN then
    { job with status := JobStatus.IN_PROGRESS
               status_reason := "Выбрано " ++ toString selected_count_after ++
                 " из 3 рекрутеров" }
  else job

/-- `change_application_status` (src/main.py:1192-1270): employer-only
status change of one application, guarded by the 3-selected-recruiters
cap, followed by the job-completion rule and a notification to the
affected recruiter. -/
def change_application_status (now : Nat) (user : User) (jobs : List Job)
    (apps : List Application) (application_id : String)
    (new_status : ApplicationStatus) :
    Except Nat (List Job × List Application × List Notification × String) :=
  match apps.find? (fun a => a.id == application_id) with
  | none => .error 404
  | some application =>
    match jobs.find? (fun j =>
        j.id == application.job_id && j.employer_id == user.id) with
    | none => .error 403
    | some job =>
      if (new_status = ApplicationStatus.SELECTED ∨
          new_status = ApplicationStatus.WORKING) ∧
          selectedOthersCount apps job.id application_id ≥ 3 then
        .error 400
      else
        let apps' := apps.map (fun a =>
          if a.id == application_id then { a with status := new_status } else a)
        let job' := jobCompletionStep now job (selectedCount apps' job.id)
        let n := create_notification application.recruiter_id
          NotificationType.APPLICATION_STATUS_CHANGE
          "Изменен статус вашего отклика"
          ("Ваш отклик на вакансию " ++ pyq job.title ++ " " ++
            status_messages new_status)
          (some job.id) (some user.id) (some application_id) none
        .ok (updateJob jobs job', apps', [n], "/my/jobs")

/-! ## Notification read-marking (src/main.py:1705-1717) -/

/-- Update the first row satisfying `p` (the ORM `.first()` of the
filtered query followed by a mutation of that single row). -/
def markFirst (p : Notification → Bool) (f : Notification → Notification) :
    List Notification → List Notification
  | [] => []
  | n :: rest => if p n then f n :: rest else n :: markFirst p f rest

/-- `mark_notification_read` (src/main.py:1705-1711): set `is_read` on
the caller-owned notification with the given id, when it exists; always
redirect to `/notifications`. -/
def mark_notification_read (user : User) (notifs : List Notification)
    (notification_id : String) : List Notification × String :=
  (markFirst (fun n => n.id == notification_id && n.user_id == user.id)
     (fun n => { n with is_read := true }) notifs,
   "/notifications")

/-- `mark_all_notifications_read` (src/main.py:1713-1717): bulk update of
every unread notification owned by the caller. -/
def mark_all_notifications_read (user : User) (notifs : List Notification) :
    List Notification × String :=
  (notifs.map (fun n =>
     if n.user_id == user.id && n.is_read == false then
       { n with is_read := true }
     else n),
   "/notifications")

/-! ## Claim C2: the pricing contract -/

/-- C2: `calculate_posting_price` returns the 3000 floor when either bound
is negative or both are zero, and otherwise
`max(((salary_min + salary_max) / 2) * 0.7, 3000)`; in particular
`price(0,0) = price(-5,-5) = 3000`, `price(10000,20000) = 10500`, and the
result is always at least 3000.  (Purity and determinism hold because the
embedding is a total function of its two arguments, faithful to the
side-effect-free Python source.) -/
theorem C2_calculate_posting_price_spec (a b : Int) :
    calculate_posting_price a b =
      (if a < 0 ∨ b < 0 ∨ (a = 0 ∧ b = 0) then MIN_POSTING_PRICE
       else max ((((a : ℚ) + (b : ℚ)) / 2) * (7 / 10)) MIN_POSTING_PRICE) ∧
    MIN_POSTING_PRICE ≤ calculate_posting_price a b ∧
    calculate_posting_price 0 0 = 3000 ∧
    calculate_posting_price (-5) (-5) = 3000 ∧
    calculate_posting_price 10000 20000 = 10500 := by
  refine ⟨?_, min_price_le_calculate_posting_price a b, ?_, ?_, ?_⟩
  · unfold calculate_posting_price PRICE_MULTIPLIER
    by_cases h1 : a < 0 ∨ b < 0
    · rcases h1 with h | h <;> simp [h]
    · by_cases h2 : a = 0 ∧ b = 0 <;> simp [h1, h2]
  · norm_num [calculate_posting_price, MIN_POSTING_PRICE]
  · norm_num [calculate_posting_price, MIN_POSTING_PRICE]
  · norm_num [calculate_posting_price, MIN_POSTING_PRICE, PRICE_MULTIPLIER]

/-! ## Claim C9: monotonicity of the pricing function -/

lemma calculate_posting_price_eq_min_of_neg {a b : Int}
    (h : a < 0 ∨ b < 0) : calculate_posting_price a b = MIN_POSTING_PRICE := by
  unfold calculate_posting_price
  simp [h]

lemma calculate_posting_price_mono {a a' b b' : Int} (ha : a ≤ a') (hb : b ≤ b') :
    calculate_posting_price a b ≤ calculate_posting_price a' b' := by
  by_cases h1 : a < 0 ∨ b < 0
  · rw [calculate_posting_price_eq_min_of_neg h1]
    exact min_price_le_calculate_posting_price a' b'
  · by_cases h2 : a = 0 ∧ b = 0
    · have : calculate_posting_price a b = MIN_POSTING_PRICE := by
        unfold calculate_posting_price; simp [h1, h2]
      rw [this]; exact min_price_le_calculate_posting_price a' b'
    · have hno : ¬(a < 0 ∨ b < 0) := h1
      push_neg at h1
      have ha0 : 0 ≤ a := h1.1
      have hb0 : 0 ≤ b := h1.2
      have h1' : ¬(a' < 0 ∨ b' < 0) := by
        push_neg
        exact ⟨le_trans ha0 ha, le_trans hb0 hb⟩
      have h2' : ¬(a' = 0 ∧ b' = 0) := by
        rintro ⟨rfl, rfl⟩
        exact h2 ⟨le_antisymm ha ha0, le_antisymm hb hb0⟩
      have lhs : calculate_posting_price a b =
          max ((((a : ℚ) + (b : ℚ)) / 2) * PRICE_MULTIPLIER) MIN_POSTING_PRICE := by
        unfold calculate_posting_price
        rw [if_neg hno, if_neg h2]
      have rhs : calculate_posting_price a' b' =
          max ((((a' : ℚ) + (b' : ℚ)) / 2) * PRICE_MULTIPLIER) MIN_POSTING_PRICE := by
        unfold calculate_posting_price
        rw [if_neg h1', if_neg h2']
      rw [lhs, rhs]
      have hsum : ((a : ℚ) + (b : ℚ)) ≤ ((a' : ℚ) + (b' : ℚ)) := by
        have := add_le_add ha hb
        exact_mod_cast this
      have hfrac : (((a : ℚ) + (b : ℚ)) / 2) * PRICE_MULTIPLIER ≤
          (((a' : ℚ) + (b' : ℚ)) / 2) * PRICE_MULTIPLIER := by
        apply mul_le_mul_of_nonneg_right _ (by norm_num [PRICE_MULTIPLIER])
        linarith
      exact max_le_max hfrac le_rfl

/-- C9 counterexample: the claim is a conjunction; its second half — that
the monotonicity of `calculate_posting_price` does NOT extend to negative
inputs — is false, because on negative inputs the function returns the
global minimum value 3000, which keeps it monotone nondecreasing over ALL
integer pairs.  Hence the claim as stated is false. -/
theorem C9_counterexample :
    ¬ ((∀ a a' b b' : Int, 0 ≤ a → a ≤ a' → 0 ≤ b → b ≤ b' →
          calculate_posting_price a b ≤ calculate_posting_price a' b') ∧
       ¬ (∀ a a' b b' : Int, a ≤ a' → b ≤ b' →
          calculate_posting_price a b ≤ calculate_posting_price a' b')) :=
  fun h => h.2 (fun _ _ _ _ ha hb => calculate_posting_price_mono ha hb)

/-- C9 amended: `calculate_posting_price` is monotone nondecreasing in
each argument over ALL integer inputs (in particular over the nonnegative
inputs named by the claim); on negative inputs it falls back to the fixed
floor 3000, which is the global minimum value, so the monotonicity
extends there too. -/
theorem C9_calculate_posting_price_monotone (a a' b b' : Int)
    (ha : a ≤ a') (hb : b ≤ b') :
    calculate_posting_price a b ≤ calculate_posting_price a' b' :=
  calculate_posting_price_mono ha hb

/-- Witness for C9: the amended theorem applied at the concrete input
`(1, 3) ≤ (2, 4)`. -/
theorem C9_calculate_posting_price_monotone_witness :
    calculate_posting_price 1 3 ≤ calculate_posting_price 2 4 :=
  C9_calculate_posting_price_monotone 1 2 3 4 (by norm_num) (by norm_num)

/-! ## Claims C8 and C10: notification read-marking -/

lemma mem_zip_map_eq {α β : Type} (f : α → β) :
    ∀ (l : List α) (p : α × β), p ∈ l.zip (l.map f) → p.2 = f p.1 := by
  intro l
  induction l with
  | nil => intro p hp; simp at hp
  | cons x xs ih =>
    intro p hp
    simp only [List.map_cons, List.zip_cons_cons, List.mem_cons] at hp
    rcases hp with rfl | hp
    · rfl
    · exact ih p hp

lemma map_eq_self_of_fix {α : Type} (g : α → α) :
    ∀ l : List α, (∀ a ∈ l, g a = a) → l.map g = l := by
  intro l
  induction l with
  | nil => intro _; rfl
  | cons x xs ih =>
    intro h
    simp only [List.map_cons]
    rw [h x (List.mem_cons_self x xs), ih (fun a ha => h a (List.mem_cons_of_mem x ha))]

lemma markFirst_eq_of_none (p : Notification → Bool)
    (f : Notification → Notification) :
    ∀ l, (∀ n ∈ l, p n = false) → markFirst p f l = l := by
  intro l
  induction l with
  | nil => intro _; rfl
  | cons x xs ih =>
    intro h
    unfold markFirst
    rw [h x (List.mem_cons_self x xs)]
    simp only [Bool.false_eq_true, if_false]
    rw [ih (fun n hn => h n (List.mem_cons_of_mem x hn))]

/-- Under unique notification ids, updating the first row matched on
`(id, user_id)` is updating every row matched on `(id, user_id)`. -/
lemma markFirst_eq_map_of_nodup (uid nid : String)
    (upd : Notification → Notification) :
    ∀ l : List Notification, (l.map Notification.id).Nodup →
      markFirst (fun n => n.id == nid && n.user_id == uid) upd l =
        l.map (fun n => if n.id = nid ∧ n.user_id = uid then upd n else n) := by
  intro l
  induction l with
  | nil => intro _; rfl
  | cons x xs ih =>
    intro hnodup
    rw [List.map_cons, List.nodup_cons] at hnodup
    by_cases hx : x.id = nid ∧ x.user_id = uid
    · unfold markFirst
      have hb : (x.id == nid && x.user_id == uid) = true := by
        simp [hx.1, hx.2]
      rw [hb]
      simp only [if_true, List.map_cons, if_pos hx]
      have htail : xs.map (fun n =>
          if n.id = nid ∧ n.user_id = uid then upd n else n) = xs := by
        apply map_eq_self_of_fix
        intro a ha
        have : a.id ≠ nid := by
          intro hid
          have hmem : a.id ∈ xs.map Notification.id :=
            List.mem_map_of_mem Notification.id ha
          rw [hid, ← hx.1] at hmem
          exact hnodup.1 hmem
        simp [this]
      rw [htail]
    · unfold markFirst
      have hb : (x.id == nid && x.user_id == uid) = false := by
        cases hcon : (x.id == nid && x.user_id == uid)
        · rfl
        · rw [Bool.and_eq_true, beq_iff_eq, beq_iff_eq] at hcon
          exact absurd hcon hx
      rw [hb]
      simp only [Bool.false_eq_true, if_false, List.map_cons, if_neg hx]
      rw [ih hnodup.2]

/-- C10: `mark_notification_read` with an id that does not exist or that
names a notification owned by another user changes no row and still
redirects to `/notifications`; when the notification exists and is owned
by the caller, exactly that row is replaced by itself with `is_read` set
to true (and nothing else changed). -/
theorem C10_mark_notification_read (user : User) (notifs : List Notification)
    (nid : String) (hnodup : (notifs.map Notification.id).Nodup) :
    (mark_notification_read user notifs nid).2 = "/notifications" ∧
    ((∀ n ∈ notifs, ¬(n.id = nid ∧ n.user_id = user.id)) →
        (mark_notification_read user notifs nid).1 = notifs) ∧
    (mark_notification_read user notifs nid).1 =
      notifs.map (fun n =>
        if n.id = nid ∧ n.user_id = user.id then { n with is_read := true }
        else n) := by
  refine ⟨rfl, ?_, ?_⟩
  · intro h
    unfold mark_notification_read
    apply markFirst_eq_of_none
    intro n hn
    have hthis := h n hn
    cases hcon : (n.id == nid && n.user_id == user.id)
    · rfl
    · rw [Bool.and_eq_true, beq_iff_eq, beq_iff_eq] at hcon
      exact absurd hcon hthis
  · unfold mark_notification_read
    exact markFirst_eq_map_of_nodup user.id nid
      (fun n => { n with is_read := true }) notifs hnodup

/-- Witness for C10: a two-row store with one row owned by the caller;
the theorem applied at that concrete input. -/
theorem C10_mark_notification_read_witness :
    (mark_notification_read
        { id := "u1", email := "u@x", name := "U", user_type := .RECRUITER }
        [{ id := "n1", user_id := "u1", type := .NEW_JOB, title := "t",
           message := "m", is_read := false, related_job_id := none,
           related_user_id := none, related_application_id := none,
           related_payment_id := none },
         { id := "n2", user_id := "u2", type := .NEW_JOB, title := "t",
           message := "m", is_read := false, related_job_id := none,
           related_user_id := none, related_application_id := none,
           related_payment_id := none }] "n1").1 =
      [{ id := "n1", user_id := "u1", type := .NEW_JOB, title := "t",
         message := "m", is_read := true, related_job_id := none,
         related_user_id := none, related_application_id := none,
         related_payment_id := none },
       { id := "n2", user_id := "u2", type := .NEW_JOB, title := "t",
         message := "m", is_read := false, related_job_id := none,
         related_user_id := none, related_application_id := none,
         related_payment_id := none }] := by
  rw [(C10_mark_notification_read
    { id := "u1", email := "u@x", name := "U", user_type := .RECRUITER }
    _ "n1" (by decide)).2.2]
  decide

/-- C8: `mark_all_notifications_read` redirects to `/notifications`,
keeps the store the same length, sets `is_read` on every row owned by the
caller while leaving all its other columns unchanged, and leaves rows of
other users entirely unchanged. -/
theorem C8_mark_all_notifications_read (user : User)
    (notifs : List Notification) :
    (mark_all_notifications_read user notifs).2 = "/notifications" ∧
    (mark_all_notifications_read user notifs).1.length = notifs.length ∧
    ∀ p ∈ notifs.zip (mark_all_notifications_read user notifs).1,
      (p.1.user_id = user.id →
        p.2.is_read = true ∧
        p.2.id = p.1.id ∧ p.2.user_id = p.1.user_id ∧
        p.2.type = p.1.type ∧ p.2.title = p.1.title ∧
        p.2.message = p.1.message ∧
        p.2.related_job_id = p.1.related_job_id ∧
        p.2.related_user_id = p.1.related_user_id ∧
        p.2.related_application_id = p.1.related_application_id ∧
        p.2.related_payment_id = p.1.related_payment_id) ∧
      (p.1.user_id ≠ user.id → p.2 = p.1) := by
  refine ⟨rfl, by simp [mark_all_notifications_read], ?_⟩
  intro p hp
  have hsnd := mem_zip_map_eq _ notifs p hp
  constructor
  · intro hown
    by_cases hread : p.1.is_read
    · rw [hsnd]
      simp [hown, hread]
    · rw [hsnd]
      simp [hown, hread]
  · intro hother
    rw [hsnd]
    have : (p.1.user_id == user.id) = false := by
      simp [hother]
    simp [this]

/-- Witness for C8: the theorem applied at a concrete two-user store. -/
theorem C8_mark_all_notifications_read_witness :
    ∀ p ∈ ([{ id := "n1", user_id := "u1", type := .NEW_JOB, title := "t",
              message := "m", is_read := false, related_job_id := none,
              related_user_id := none, related_application_id := none,
              related_payment_id := none },
            { id := "n2", user_id := "u2", type := .NEW_JOB, title := "t",
              message := "m", is_read := false, related_job_id := none,
              related_user_id := none, related_application_id := none,
              related_payment_id := none }] : List Notification).zip
        (mark_all_notifications_read
          { id := "u1", email := "u@x", name := "U", user_type := .RECRUITER }
          [{ id := "n1", user_id := "u1", type := .NEW_JOB, title := "t",
             message := "m", is_read := false, related_job_id := none,
             related_user_id := none, related_application_id := none,
             related_payment_id := none },
           { id := "n2", user_id := "u2", type := .NEW_JOB, title := "t",
             message := "m", is_read := false, related_job_id := none,
             related_user_id := none, related_application_id := none,
             related_payment_id := none }]).1,
      (p.1.user_id = "u1" → p.2.is_read = true) ∧
      (p.1.user_id ≠ "u1" → p.2 = p.1) := by
  intro p hp
  have h := (C8_mark_all_notifications_read
    { id := "u1", email := "u@x", name := "U", user_type := .RECRUITER }
    _).2.2 p hp
  exact ⟨fun ho => (h.1 ho).1, h.2⟩

/-! ## Claim C7: admin moderation -/

lemma mem_updateJob_cases {jobs : List Job} {j' : Job} {j : Job}
    (hj : j ∈ updateJob jobs j') : j = j' ∨ (j ∈ jobs ∧ j.id ≠ j'.id ∨ j = j') := by
  rcases List.mem_map.mp hj with ⟨x, hxmem, hxeq⟩
  cases hxid : (x.id == j'.id) with
  | true => rw [hxid] at hxeq; simp at hxeq; exact Or.inl hxeq.symm
  | false =>
    rw [hxid] at hxeq
    simp at hxeq
    subst hxeq
    exact Or.inr (Or.inl ⟨hxmem, by simpa using (beq_eq_false_iff_ne).mp hxid⟩)

/-- Every member of `updateJob jobs j'` carrying the id of `j'` is `j'`
itself. -/
lemma mem_updateJob_eq_of_id {jobs : List Job} {j' : Job} {j : Job}
    (hj : j ∈ updateJob jobs j') (hid : j.id = j'.id) : j = j' := by
  rcases List.mem_map.mp hj with ⟨x, _, hxeq⟩
  cases hxid : (x.id == j'.id) with
  | true => rw [hxid] at hxeq; simpa using hxeq.symm
  | false =>
    rw [hxid] at hxeq
    simp at hxeq
    subst hxeq
    exact absurd hid (by simpa using (beq_eq_false_iff_ne).mp hxid)

/-- C7: on a pending job, the admin moderation action with `approve` sets
the job to `open` and creates one `JOB_APPROVED` notification for the
employer; with `reject` it sets the job to `rejected` recording the
reason in its moderation comment and creates one `JOB_REJECTED`
notification for the employer. -/
theorem C7_moderate_job (now : Nat) (admin : User) (jobs : List Job)
    (job_id comment : String) (job : Job)
    (hadmin : admin.user_type = UserType.ADMIN)
    (hfind : jobs.find? (fun j => j.id == job_id) = some job)
    (hpending : job.status = JobStatus.PENDING) :
    job.status.value = "pending" ∧
    (∃ jobs1 notifs1 r1,
        moderate_job now admin jobs job_id "approve" comment =
          .ok (jobs1, notifs1, r1) ∧
        (∀ j ∈ jobs1, j.id = job.id → j.status = JobStatus.OPEN) ∧
        notifs1.map (fun nf => (nf.user_id, nf.type)) =
          [(job.employer_id, NotificationType.JOB_APPROVED)]) ∧
    (∃ jobs2 notifs2 r2,
        moderate_job now admin jobs job_id "reject" comment =
          .ok (jobs2, notifs2, r2) ∧
        (∀ j ∈ jobs2, j.id = job.id →
          j.status = JobStatus.REJECTED ∧
          j.moderation_comment =
            (if comment ≠ "" then comment else "Вакансия отклонена")) ∧
        notifs2.map (fun nf => (nf.user_id, nf.type)) =
          [(job.employer_id, NotificationType.JOB_REJECTED)]) := by
  have hrole : ¬ admin.user_type ≠ UserType.ADMIN := by simp [hadmin]
  refine ⟨by rw [hpending]; rfl, ?_, ?_⟩
  · have hcomp : moderate_job now admin jobs job_id "approve" comment =
        .ok (updateJob jobs { job with
              status := JobStatus.OPEN
              moderator_id := some admin.id
              moderated_at := some now
              moderation_comment :=
                if comment ≠ "" then comment else "Вакансия одобрена" },
            [create_notification job.employer_id NotificationType.JOB_APPROVED
              ("Вакансия " ++ pyq job.title ++ " одобрена!")
              "Ваша вакансия прошла модерацию и опубликована на платформе."
              (some job.id) none none none],
            "/admin/jobs") := by
      unfold moderate_job
      rw [if_neg hrole, hfind]
      rfl
    refine ⟨_, _, _, hcomp, ?_, ?_⟩
    · intro j hj hid
      have := mem_updateJob_eq_of_id hj (by simpa using hid)
      rw [this]
    · simp [create_notification]
  · have hcomp : moderate_job now admin jobs job_id "reject" comment =
        .ok (updateJob jobs { job with
              status := JobStatus.REJECTED
              moderator_id := some admin.id
              moderated_at := some now
              moderation_comment :=
                if comment ≠ "" then comment else "Вакансия отклонена" },
            [create_notification job.employer_id NotificationType.JOB_REJECTED
              ("Вакансия " ++ pyq job.title ++ " отклонена")
              ("Ваша вакансия не прошла модерацию. Причина: " ++ comment)
              (some job.id) none none none],
            "/admin/jobs") := by
      unfold moderate_job
      rw [if_neg hrole, hfind]
      rfl
    refine ⟨_, _, _, hcomp, ?_, ?_⟩
    · intro j hj hid
      have := mem_updateJob_eq_of_id hj (by simpa using hid)
      rw [this]
      exact ⟨rfl, rfl⟩
    · simp [create_notification]

/-! ## Claim C3: paying for a job -/

lemma countP_id_eq_one_of_nodup (u : User) :
    ∀ l : List User, (l.map User.id).Nodup → u ∈ l →
      l.countP (fun x => x.id == u.id) = 1 := by
  intro l
  induction l with
  | nil => intro _ hu; simp at hu
  | cons x xs ih =>
    intro hnodup hu
    rw [List.map_cons, List.nodup_cons] at hnodup
    rcases List.mem_cons.mp hu with rfl | hu
    · have hzero : xs.countP (fun a => a.id == u.id) = 0 := by
        rw [List.countP_eq_zero]
        intro a ha
        have : a.id ≠ u.id := by
          intro h
          exact hnodup.1 (h ▸ List.mem_map_of_mem User.id ha)
        simp [this]
      rw [List.countP_cons, hzero]
      simp
    · have hne : x.id ≠ u.id := by
        intro h
        exact hnodup.1 (h ▸ List.mem_map_of_mem User.id hu)
      rw [List.countP_cons, ih hnodup.2 hu]
      simp [hne]

/-- C3: paying for an owned draft job with an associated payment marks the
payment `paid`, stamps a transaction id derived from the current
timestamp, moves the job to `pending`, and creates exactly one payment
success notification for the employer plus exactly one new-job
notification per admin user, and no other notifications. -/
theorem C3_process_job_payment (now : Nat) (user : User) (users : List User)
    (jobs : List Job) (payments : List Payment) (job_id pm : String)
    (job : Job) (payment : Payment)
    (hjob : jobs.find? (fun j => j.id == job_id && j.employer_id == user.id)
      = some job)
    (hdraft : job.status = JobStatus.DRAFT)
    (hpay : payments.find? (fun p => p.job_id == job_id) = some payment)
    (hids : (users.map User.id).Nodup) :
    job.status.value = "draft" ∧
    ∃ jobs' payments' notifs r,
      process_job_payment now user users jobs payments job_id pm =
        .ok (jobs', payments', notifs, r) ∧
      (∀ j ∈ jobs', j.id = job.id → j.status = JobStatus.PENDING) ∧
      (∃ p ∈ payments', p.id = payment.id ∧ p.status = PaymentStatus.PAID ∧
        p.transaction_id = some ("TXN_" ++ toString now) ∧
        p.paid_at = some now) ∧
      notifs.countP (fun nf =>
        nf.type == NotificationType.PAYMENT_SUCCESS && nf.user_id == user.id)
        = 1 ∧
      (∀ ad ∈ users, ad.user_type = UserType.ADMIN →
        notifs.countP (fun nf =>
          nf.type == NotificationType.NEW_JOB && nf.user_id == ad.id) = 1) ∧
      notifs.length =
        1 + (users.filter (fun u => u.user_type == UserType.ADMIN)).length := by
  have hcomp : process_job_payment now user users jobs payments job_id pm =
      .ok (updateJob jobs { job with
            status := JobStatus.PENDING
            status_reason := "Ожидает модерации" },
          updatePayment payments { payment with
            status := PaymentStatus.PAID
            payment_method := some pm
            paid_at := some now
            transaction_id := some ("TXN_" ++ toString now) },
          create_notification user.id NotificationType.PAYMENT_SUCCESS
            "Оплата успешно обработана"
            ("Вакансия " ++ pyq job.title ++ " оплачена и отправлена на модерацию.")
            (some job.id) none none (some payment.id) ::
          (users.filter (fun u => u.user_type == UserType.ADMIN)).map (fun a =>
            create_notification a.id NotificationType.NEW_JOB
              "Новая вакансия на модерацию"
              ("Работодатель " ++ user.name ++ " создал вакансию " ++
                pyq job.title ++ " и ожидает модерации.")
              (some job.id) (some user.id) none none),
          "/my/jobs?payment_success=1") := by
    unfold process_job_payment
    rw [hjob, hpay]
  refine ⟨by rw [hdraft]; rfl, _, _, _, _, hcomp, ?_, ?_, ?_, ?_, ?_⟩
  · intro j hj hid
    have := mem_updateJob_eq_of_id hj (by simpa using hid)
    rw [this]
  · refine ⟨{ payment with
        status := PaymentStatus.PAID
        payment_method := some pm
        paid_at := some now
        transaction_id := some ("TXN_" ++ toString now) }, ?_, rfl, rfl, rfl, rfl⟩
    have hmem : payment ∈ payments := List.mem_of_find?_eq_some hpay
    have himg := List.mem_map_of_mem
      (fun x => if x.id == ({ payment with
        status := PaymentStatus.PAID
        payment_method := some pm
        paid_at := some now
        transaction_id := some ("TXN_" ++ toString now) } : Payment).id
        then { payment with
          status := PaymentStatus.PAID
          payment_method := some pm
          paid_at := some now
          transaction_id := some ("TXN_" ++ toString now) } else x) hmem
    simpa [updatePayment] using himg
  · rw [List.countP_cons]
    have hzero : ((users.filter (fun u => u.user_type == UserType.ADMIN)).map
        (fun a => create_notification a.id NotificationType.NEW_JOB
          "Новая вакансия на модерацию"
          ("Работодатель " ++ user.name ++ " создал вакансию " ++
            pyq job.title ++ " и ожидает модерации.")
          (some job.id) (some user.id) none none)).countP (fun nf =>
          nf.type == NotificationType.PAYMENT_SUCCESS && nf.user_id == user.id)
        = 0 := by
      rw [List.countP_map, List.countP_eq_zero]
      intro a _
      simp [create_notification]
    rw [hzero]
    simp [create_notification]
  · intro ad hmem had
    rw [List.countP_cons]
    have hone : ((users.filter (fun u => u.user_type == UserType.ADMIN)).map
        (fun a => create_notification a.id NotificationType.NEW_JOB
          "Новая вакансия на модерацию"
          ("Работодатель " ++ user.name ++ " создал вакансию " ++
            pyq job.title ++ " и ожидает модерации.")
          (some job.id) (some user.id) none none)).countP (fun nf =>
          nf.type == NotificationType.NEW_JOB && nf.user_id == ad.id) = 1 := by
      rw [List.countP_map]
      have : ((fun nf => nf.type == NotificationType.NEW_JOB &&
          nf.user_id == ad.id) ∘ (fun (a : User) => create_notification a.id
            NotificationType.NEW_JOB "Новая вакансия на модерацию"
            ("Работодатель " ++ user.name ++ " создал вакансию " ++
              pyq job.title ++ " и ожидает модерации.")
            (some job.id) (some user.id) none none)) =
          (fun (a : User) => a.id == ad.id) := by
        funext a
        simp [create_notification]
      rw [this]
      apply countP_id_eq_one_of_nodup
      · exact (List.Sublist.map User.id (List.filter_sublist users)).nodup hids
      · exact List.mem_filter.mpr ⟨hmem, by simp [had]⟩
    rw [hone]
    simp [create_notification]
  · simp [Nat.add_comm]

/-! ## Concrete fixtures and witnesses for C7 and C3 -/

def c7Admin : User :=
  { id := "adm", email := "a@x", name := "Admin", user_type := .ADMIN }

def c7Job : Job :=
  { id := "j1", employer_id := "e1", moderator_id := none, title := "T"
    salary_min := 100, salary_max := 200, max_applications := 3
    status := .PENDING, status_reason := "Ожидает модерации"
    moderated_at := none, moderation_comment := ""
    avg_time_to_fill := none, filled_at := none, created_at := 0 }

/-- Witness for C7: the approve half of the theorem at a concrete pending
job and admin. -/
theorem C7_moderate_job_witness :
    ∃ jobs1 notifs1 r1,
      moderate_job 5 c7Admin [c7Job] "j1" "approve" "" =
        .ok (jobs1, notifs1, r1) ∧
      (∀ j ∈ jobs1, j.id = c7Job.id → j.status = JobStatus.OPEN) ∧
      notifs1.map (fun nf => (nf.user_id, nf.type)) =
        [(c7Job.employer_id, NotificationType.JOB_APPROVED)] :=
  (C7_moderate_job 5 c7Admin [c7Job] "j1" "" c7Job rfl (by decide) rfl).2.1

def c3Emp : User :=
  { id := "e1", email := "e@x", name := "Emp", user_type := .EMPLOYER }

def c3AdmUser : User :=
  { id := "adm", email := "a@x", name := "Admin", user_type := .ADMIN }

def c3Job : Job :=
  { id := "j1", employer_id := "e1", moderator_id := none, title := "T"
    salary_min := 100, salary_max := 200, max_applications := 3
    status := .DRAFT, status_reason := "Ожидает оплаты"
    moderated_at := none, moderation_comment := ""
    avg_time_to_fill := none, filled_at := none, created_at := 0 }

def c3Payment : Payment :=
  { id := "p1", job_id := "j1", employer_id := "e1", amount := 3000
    status := .PENDING, payment_method := none, transaction_id := none
    paid_at := none }

/-- Witness for C3: the theorem at a concrete employer, one admin, one
draft job and its pending payment. -/
theorem C3_process_job_payment_witness :
    c3Job.status.value = "draft" ∧
    ∃ jobs' payments' notifs r,
      process_job_payment 7 c3Emp [c3Emp, c3AdmUser] [c3Job] [c3Payment]
          "j1" "card" = .ok (jobs', payments', notifs, r) ∧
      (∀ j ∈ jobs', j.id = c3Job.id → j.status = JobStatus.PENDING) ∧
      (∃ p ∈ payments', p.id = c3Payment.id ∧ p.status = PaymentStatus.PAID ∧
        p.transaction_id = some ("TXN_" ++ toString 7) ∧
        p.paid_at = some 7) ∧
      notifs.countP (fun nf =>
        nf.type == NotificationType.PAYMENT_SUCCESS && nf.user_id == c3Emp.id)
        = 1 ∧
      (∀ ad ∈ [c3Emp, c3AdmUser], ad.user_type = UserType.ADMIN →
        notifs.countP (fun nf =>
          nf.type == NotificationType.NEW_JOB && nf.user_id == ad.id) = 1) ∧
      notifs.length = 1 +
        (([c3Emp, c3AdmUser].filter
          (fun u => u.user_type == UserType.ADMIN))).length :=
  C3_process_job_payment 7 c3Emp [c3Emp, c3AdmUser] [c3Job] [c3Payment]
    "j1" "card" c3Job c3Payment rfl rfl rfl (by decide)

/-! ## Claim C4: automatic completion of a job -/

/-- C4: a job in `open` or `in_progress` is set to `completed` with a
status reason by each of the two call sites once its own threshold is
met: the rule inside `change_application_status` (embodied in
`jobCompletionStep`, applied to the post-update selected/working count)
fires at count ≥ 3, and `auto_update_job_status` fires as soon as some
application of the job is `completed`. -/
theorem C4_job_auto_completion (now : Nat) (job : Job)
    (apps : List Application) (n : Nat)
    (hopen : job.status = JobStatus.OPEN ∨ job.status = JobStatus.IN_PROGRESS) :
    (3 ≤ n →
      (jobCompletionStep now job n).status = JobStatus.COMPLETED ∧
      (jobCompletionStep now job n).status_reason = "Найдены все 3 рекрутера") ∧
    (0 < completedCount apps job.id →
      (auto_update_job_status now job apps).1.status = JobStatus.COMPLETED ∧
      (auto_update_job_status now job apps).1.status_reason =
        "Найден подходящий кандидат") := by
  have hne : job.status ≠ JobStatus.COMPLETED := by
    rcases hopen with h | h <;> simp [h]
  constructor
  · intro hn3
    have hcond : (decide (n ≥ 3) && (job.status != JobStatus.COMPLETED)) = true := by
      simp [hn3, hne]
    unfold jobCompletionStep
    rw [if_pos hcond]
    unfold calculate_job_analytics
    split_ifs <;> exact ⟨rfl, rfl⟩
  · intro hc
    have hcond :
        (decide (completedCount apps job.id > 0) &&
          (job.status != JobStatus.COMPLETED)) = true := by
      simp [hc, hne]
    unfold auto_update_job_status auto_update_job_status_job
    simp only [hcond, if_true]
    unfold calculate_job_analytics
    split_ifs <;> exact ⟨rfl, rfl⟩

def c4Job : Job :=
  { id := "j1", employer_id := "e1", moderator_id := none, title := "T"
    salary_min := 100, salary_max := 200, max_applications := 3
    status := .OPEN, status_reason := ""
    moderated_at := none, moderation_comment := ""
    avg_time_to_fill := none, filled_at := none, created_at := 0 }

def c4CompApp : Application :=
  { id := "a1", job_id := "j1", recruiter_id := "r1", cover_letter := "cv"
    status := .COMPLETED }

/-- Witness for C4: both completion rules at a concrete open job, one
with the selected/working count 3 and one with a completed application. -/
theorem C4_job_auto_completion_witness :
    (jobCompletionStep 0 c4Job 3).status = JobStatus.COMPLETED ∧
    (auto_update_job_status 0 c4Job [c4CompApp]).1.status =
      JobStatus.COMPLETED :=
  ⟨((C4_job_auto_completion 0 c4Job [c4CompApp] 3 (Or.inl rfl)).1
      (by norm_num)).1,
   ((C4_job_auto_completion 0 c4Job [c4CompApp] 3 (Or.inl rfl)).2
      (by decide)).1⟩

/-! ## Claim C6: status-change notification fan-out -/

def c6Emp : User :=
  { id := "e1", email := "e@x", name := "Emp", user_type := .EMPLOYER }

def c6Job : Job :=
  { id := "j1", employer_id := "e1", moderator_id := none, title := "T"
    salary_min := 100, salary_max := 200, max_applications := 3
    status := .OPEN, status_reason := ""
    moderated_at := none, moderation_comment := ""
    avg_time_to_fill := none, filled_at := none, created_at := 0 }

def c6App : Application :=
  { id := "a1", job_id := "j1", recruiter_id := "r1", cover_letter := "cv"
    status := .PENDING }

/-- C6 counterexample: the manual handler `change_job_status` creates its
notifications unconditionally.  Setting an open job's status to `open`
(stored value unchanged) still creates one `JOB_STATUS_CHANGE`
notification for the job's single applicant, refuting the claim's clause
that no such notifications are created when the stored status value does
not change. -/
theorem C6_counterexample :
    (change_job_status 0 c6Emp [c6Job] [c6App] "j1" JobStatus.OPEN
        "").toOption.map (fun x => (x.1.map Job.status, x.2.1.length)) =
      some ([JobStatus.OPEN], 1) := by
  rfl

/-- C6 amended: on an automatic transition (`auto_update_job_status`) the
claim holds exactly as stated — one `JOB_STATUS_CHANGE` notification per
applicant of the job when the stored status value changes, describing the
old status, the new status and the reason, and none when the value does
not change.  The manual handler (`change_job_status`), however, creates
one such notification per applicant on every successful call, whether or
not the stored value changed. -/
theorem C6_status_change_notifications (now : Nat) (user : User)
    (jobs : List Job) (apps : List Application) (job : Job) (job_id : String)
    (new_status : JobStatus) (reason : String)
    (hfind : jobs.find? (fun j => j.id == job_id && j.employer_id == user.id)
      = some job) :
    ((auto_update_job_status now job apps).1.status = job.status →
      (auto_update_job_status now job apps).2 = []) ∧
    ((auto_update_job_status now job apps).1.status ≠ job.status →
      (auto_update_job_status now job apps).2.map Notification.user_id =
        (apps.filter (fun a => a.job_id == job.id)).map
          Application.recruiter_id ∧
      ∀ nf ∈ (auto_update_job_status now job apps).2,
        nf.type = NotificationType.JOB_STATUS_CHANGE ∧
        nf.message = "Статус изменен с " ++ pyq job.status.value ++ " на " ++
          pyq (auto_update_job_status now job apps).1.status.value ++
          ". Причина: " ++
          (auto_update_job_status now job apps).1.status_reason) ∧
    (∀ jobs' notifs r,
      change_job_status now user jobs apps job_id new_status reason =
        .ok (jobs', notifs, r) →
      notifs.map Notification.user_id =
        (apps.filter (fun a => a.job_id == job_id)).map
          Application.recruiter_id ∧
      ∀ nf ∈ notifs,
        nf.type = NotificationType.JOB_STATUS_CHANGE ∧
        nf.message = "Статус изменен с " ++ pyq job.status.value ++ " на " ++
          pyq new_status.value ++ ". Причина: " ++
          (if reason ≠ "" then reason else "Изменено работодателем")) := by
  refine ⟨?_, ?_, ?_⟩
  · intro h
    have hb : (job.status !=
        (auto_update_job_status_job now job apps).status) = false := by
      have heq : (auto_update_job_status_job now job apps).status = job.status := h
      rw [heq]
      simp
    show (auto_update_job_status now job apps).2 = []
    simp only [auto_update_job_status]
    rw [hb]
    rfl
  · intro h
    have hb : (job.status !=
        (auto_update_job_status_job now job apps).status) = true := by
      have hne : (auto_update_job_status_job now job apps).status ≠ job.status := h
      simp [bne_iff_ne]
      exact fun hx => hne hx.symm
    have h2 : (auto_update_job_status now job apps).2 =
        (apps.filter (fun a => a.job_id == job.id)).map (fun a =>
          create_notification a.recruiter_id NotificationType.JOB_STATUS_CHANGE
            ("Изменен статус вакансии " ++ pyq job.title)
            ("Статус изменен с " ++ pyq job.status.value ++ " на " ++
              pyq (auto_update_job_status_job now job apps).status.value ++
              ". Причина: " ++
              (auto_update_job_status_job now job apps).status_reason)
            (some job.id) none none none) := by
      simp only [auto_update_job_status]
      rw [hb]
      simp
    rw [h2]
    constructor
    · rw [List.map_map]
      rfl
    · intro nf hnf
      rcases List.mem_map.mp hnf with ⟨a, _, rfl⟩
      exact ⟨rfl, rfl⟩
  · intro jobs' notifs r heq
    have hcomp : change_job_status now user jobs apps job_id new_status reason =
        .ok (updateJob jobs
            (if new_status = JobStatus.COMPLETED then
              calculate_job_analytics now { job with
                status := new_status
                status_reason :=
                  if reason ≠ "" then reason else "Изменено работодателем" }
            else { job with
              status := new_status
              status_reason :=
                if reason ≠ "" then reason else "Изменено работодателем" }),
          (apps.filter (fun a => a.job_id == job_id)).map (fun a =>
            create_notification a.recruiter_id
              NotificationType.JOB_STATUS_CHANGE
              ("Изменен статус вакансии " ++ pyq job.title)
              ("Статус изменен с " ++ pyq job.status.value ++ " на " ++
                pyq new_status.value ++ ". Причина: " ++
                (if new_status = JobStatus.COMPLETED then
                  calculate_job_analytics now { job with
                    status := new_status
                    status_reason :=
                      if reason ≠ "" then reason else "Изменено работодателем" }
                else { job with
                  status := new_status
                  status_reason :=
                    if reason ≠ "" then reason else "Изменено работодателем" }).status_reason)
              (some job_id) (some user.id) none none),
          "/my/jobs") := by
      unfold change_job_status
      rw [hfind]
    have hBoth := heq.symm.trans hcomp
    simp only [Except.ok.injEq, Prod.mk.injEq] at hBoth
    obtain ⟨rfl, rfl, rfl⟩ := hBoth
    have hreason : (if new_status = JobStatus.COMPLETED then
        calculate_job_analytics now { job with
          status := new_status
          status_reason :=
            if reason ≠ "" then reason else "Изменено работодателем" }
      else { job with
        status := new_status
        status_reason :=
          if reason ≠ "" then reason else "Изменено работодателем" }).status_reason =
        (if reason ≠ "" then reason else "Изменено работодателем") := by
      unfold calculate_job_analytics
      split_ifs <;> rfl
    constructor
    · rw [List.map_map]
      rfl
    · intro nf hnf
      rcases List.mem_map.mp hnf with ⟨a, _, rfl⟩
      refine ⟨rfl, ?_⟩
      simp only [create_notification]
      rw [hreason]

/-- Witness for the amended C6: at a concrete open job with one pending
applicant, the automatic update changes nothing and creates no
notifications, while a manual change to `paused` notifies the applicant. -/
theorem C6_status_change_notifications_witness :
    (auto_update_job_status 0 c6Job [c6App]).2 = [] ∧
    (∀ jobs' notifs r,
      change_job_status 0 c6Emp [c6Job] [c6App] "j1" JobStatus.PAUSED "x" =
        .ok (jobs', notifs, r) →
      notifs.map Notification.user_id =
        (([c6App] : List Application).filter (fun a => a.job_id == "j1")).map
          Application.recruiter_id ∧
      ∀ nf ∈ notifs,
        nf.type = NotificationType.JOB_STATUS_CHANGE ∧
        nf.message = "Статус изменен с " ++ pyq c6Job.status.value ++ " на " ++
          pyq JobStatus.PAUSED.value ++ ". Причина: " ++
          (if ("x" : String) ≠ "" then "x" else "Изменено работодателем")) :=
  ⟨(C6_status_change_notifications 0 c6Emp [c6Job] [c6App] c6Job "j1"
      JobStatus.PAUSED "x" rfl).1 (by decide),
   (C6_status_change_notifications 0 c6Emp [c6Job] [c6App] c6Job "j1"
      JobStatus.PAUSED "x" rfl).2.2⟩

/-! ## Claim C5: duplicate applications -/

def c5Rec : User :=
  { id := "r1", email := "r@x", name := "Rec", user_type := .RECRUITER }

def c5Job : Job :=
  { id := "j1", employer_id := "e1", moderator_id := none, title := "T"
    salary_min := 100, salary_max := 200, max_applications := 3
    status := .OPEN, status_reason := ""
    moderated_at := none, moderation_comment := ""
    avg_time_to_fill := none, filled_at := none, created_at := 0 }

def c5App1 : Application :=
  { id := "a1", job_id := "j1", recruiter_id := "r1", cover_letter := "cv"
    status := .PENDING }

def c5App2 : Application :=
  { id := "a2", job_id := "j1", recruiter_id := "r2", cover_letter := "cv"
    status := .PENDING }

def c5App3 : Application :=
  { id := "a3", job_id := "j1", recruiter_id := "r3", cover_letter := "cv"
    status := .PENDING }

/-- C5 counterexample: recruiter r1 already has an application on open
job j1, but the job has reached its application cap (3 of 3), so the
second apply request is rejected with the `max_applications` redirect —
not with the "already applied" error the claim names.  (No row is
inserted either way.) -/
theorem C5_counterexample :
    (∃ a ∈ [c5App1, c5App2, c5App3],
      a.job_id = "j1" ∧ a.recruiter_id = c5Rec.id) ∧
    (post_apply 0 c5Rec [c5Job] [c5App1, c5App2, c5App3] "j1" "cv" "new").1 =
      .redirect "/jobs/j1?error=max_applications" ∧
    (post_apply 0 c5Rec [c5Job] [c5App1, c5App2, c5App3] "j1" "cv" "new").1 ≠
      .template "Вы уже откликнулись на эту вакансию!" ∧
    (post_apply 0 c5Rec [c5Job] [c5App1, c5App2, c5App3] "j1" "cv" "new").2.2.1
      = [c5App1, c5App2, c5App3] := by
  refine ⟨⟨c5App1, by decide, rfl, rfl⟩, rfl, by decide, rfl⟩

/-- C5 amended: when the requesting recruiter already has an application
on the job, `post_apply` never inserts a second row; it answers with the
"already applied" error whenever the duplicate check is reached (job
found, caller is a recruiter, job open, application count below the cap),
and with the earlier guard's error otherwise.  Moreover `post_apply`
preserves "at most one application per (job, recruiter) pair". -/
theorem C5_no_duplicate_application (now : Nat) (user : User)
    (jobs : List Job) (apps : List Application)
    (job_id cover new_id : String) :
    ((∃ a ∈ apps, a.job_id = job_id ∧ a.recruiter_id = user.id) →
      (post_apply now user jobs apps job_id cover new_id).2.2.1 = apps ∧
      (∀ job, jobs.find? (fun j => j.id == job_id) = some job →
        user.user_type = UserType.RECRUITER →
        job.status = JobStatus.OPEN →
        applicationsCount apps job_id < job.max_applications →
        (post_apply now user jobs apps job_id cover new_id).1 =
          .template "Вы уже откликнулись на эту вакансию!")) ∧
    (∀ jid rid,
      apps.countP (fun a => a.job_id == jid && a.recruiter_id == rid) ≤ 1 →
      (post_apply now user jobs apps job_id cover new_id).2.2.1.countP
        (fun a => a.job_id == jid && a.recruiter_id == rid) ≤ 1) := by
  constructor
  · intro hdup
    have hdupB : (apps.find? (fun a =>
        a.job_id == job_id && a.recruiter_id == user.id)).isSome = true := by
      rw [List.find?_isSome]
      rcases hdup with ⟨a, ha, h1, h2⟩
      exact ⟨a, ha, by simp [h1, h2]⟩
    by_cases hrole : user.user_type ≠ UserType.RECRUITER
    · simp only [post_apply, if_pos hrole]
      exact ⟨trivial, fun job _ hrec _ _ => absurd hrec hrole⟩
    · cases hjf : jobs.find? (fun j => j.id == job_id) with
      | none =>
        simp only [post_apply, hjf, if_neg hrole]
        refine ⟨trivial, ?_⟩
        intro job hj _ _ _
        cases hj
      | some job =>
        by_cases hopen : job.status ≠ JobStatus.OPEN
        · simp only [post_apply, hjf, if_neg hrole, if_pos hopen]
          refine ⟨trivial, ?_⟩
          intro job2 hj2 _ hopen2 _
          injection hj2 with hj2
          subst hj2
          exact absurd hopen2 hopen
        · by_cases hcap : applicationsCount apps job_id ≥ job.max_applications
          · simp only [post_apply, hjf, if_neg hrole, if_neg hopen, if_pos hcap]
            refine ⟨trivial, ?_⟩
            intro job2 hj2 _ _ hlt
            injection hj2 with hj2
            subst hj2
            omega
          · simp only [post_apply, hjf, if_neg hrole, if_neg hopen,
              if_neg hcap, if_pos hdupB]
            exact ⟨trivial, fun _ _ _ _ _ => trivial⟩
  · intro jid rid hle
    by_cases hrole : user.user_type ≠ UserType.RECRUITER
    · simp only [post_apply, if_pos hrole]
      exact hle
    · cases hjf : jobs.find? (fun j => j.id == job_id) with
      | none =>
        simp only [post_apply, hjf, if_neg hrole]
        exact hle
      | some job =>
        by_cases hopen : job.status ≠ JobStatus.OPEN
        · simp only [post_apply, hjf, if_neg hrole, if_pos hopen]
          exact hle
        · by_cases hcap : applicationsCount apps job_id ≥ job.max_applications
          · simp only [post_apply, hjf, if_neg hrole, if_neg hopen, if_pos hcap]
            exact hle
          · cases hdf : apps.find? (fun a =>
                a.job_id == job_id && a.recruiter_id == user.id) with
            | some x =>
              have hdfS : (apps.find? (fun a =>
                  a.job_id == job_id && a.recruiter_id == user.id)).isSome
                  = true := by rw [hdf]; rfl
              simp only [post_apply, hjf, if_neg hrole, if_neg hopen,
                if_neg hcap, if_pos hdfS]
              exact hle
            | none =>
              have hdfN : ¬ (apps.find? (fun a =>
                  a.job_id == job_id && a.recruiter_id == user.id)).isSome
                  = true := by rw [hdf]; simp
              simp only [post_apply, hjf, if_neg hrole, if_neg hopen,
                if_neg hcap, if_neg hdfN]
              show ((apps ++ [({ id := new_id, job_id := job_id, recruiter_id := user.id, cover_letter := cover, status := ApplicationStatus.PENDING } : Application)]).countP
                (fun a => a.job_id == jid && a.recruiter_id == rid)) ≤ 1
              rw [List.countP_append]
              by_cases hj : job_id = jid
              · by_cases hr : user.id = rid
                · have hzero : apps.countP
                      (fun a => a.job_id == jid && a.recruiter_id == rid)
                      = 0 := by
                    rw [List.countP_eq_zero]
                    intro a ha
                    have hnone := List.find?_eq_none.mp hdf a ha
                    simp only [Bool.and_eq_true, beq_iff_eq] at hnone ⊢
                    rw [← hj, ← hr]
                    exact hnone
                  rw [hzero]
                  simp only [List.countP_cons, List.countP_nil]
                  split_ifs <;> omega
                · have hone : ([{ id := new_id, job_id := job_id, recruiter_id := user.id, cover_letter := cover, status := ApplicationStatus.PENDING }] :
                        List Application).countP
                      (fun a => a.job_id == jid && a.recruiter_id == rid)
                      = 0 := by
                    simp [List.countP_cons, hr]
                  rw [hone]
                  omega
              · have hone : ([{ id := new_id, job_id := job_id, recruiter_id := user.id, cover_letter := cover, status := ApplicationStatus.PENDING }] :
                      List Application).countP
                    (fun a => a.job_id == jid && a.recruiter_id == rid)
                    = 0 := by
                  simp [List.countP_cons, hj]
                rw [hone]
                omega

/-- Witness for the amended C5: recruiter r1 already applied to open job
j1 which is below its cap; a second apply is rejected with the "already
applied" template and inserts nothing. -/
theorem C5_no_duplicate_application_witness :
    (post_apply 0 c5Rec [c5Job] [c5App1] "j1" "cv" "n").2.2.1 = [c5App1] ∧
    (post_apply 0 c5Rec [c5Job] [c5App1] "j1" "cv" "n").1 =
      .template "Вы уже откликнулись на эту вакансию!" :=
  have h := (C5_no_duplicate_application 0 c5Rec [c5Job] [c5App1]
    "j1" "cv" "n").1 ⟨c5App1, by decide, rfl, rfl⟩
  ⟨h.1, h.2 c5Job rfl rfl rfl (by decide)⟩

/-! ## Claim C1: the 3-selected-recruiters cap -/

lemma countP_le_add_of_or {α : Type} (f g h : α → Bool) :
    ∀ l : List α, (∀ a ∈ l, f a = true → g a = true ∨ h a = true) →
      l.countP f ≤ l.countP g + l.countP h := by
  intro l
  induction l with
  | nil => intro _; simp
  | cons x xs ih =>
    intro hImp
    rw [List.countP_cons, List.countP_cons, List.countP_cons]
    have hxs := ih (fun a ha hf => hImp a (List.mem_cons_of_mem x ha) hf)
    by_cases hfx : f x = true
    · rcases hImp x (List.mem_cons_self x xs) hfx with hg | hh
      · rw [if_pos hfx, if_pos hg]
        split_ifs <;> omega
      · rw [if_pos hfx, if_pos hh]
        split_ifs <;> omega
    · rw [if_neg hfx]
      split_ifs <;> omega

lemma countP_app_id_le_one (aid : String) :
    ∀ l : List Application, (l.map Application.id).Nodup →
      l.countP (fun a => a.id == aid) ≤ 1 := by
  intro l
  induction l with
  | nil => intro _; simp
  | cons x xs ih =>
    intro hnodup
    rw [List.map_cons, List.nodup_cons] at hnodup
    rw [List.countP_cons]
    by_cases hx : (x.id == aid) = true
    · have hxid : x.id = aid := beq_iff_eq.mp hx
      have hzero : xs.countP (fun a => a.id == aid) = 0 := by
        rw [List.countP_eq_zero]
        intro a ha
        have hane : a.id ≠ aid := by
          intro hid
          apply hnodup.1
          rw [hxid, ← hid]
          exact List.mem_map_of_mem Application.id ha
        simp [hane]
      rw [hzero, if_pos hx]
    · rw [if_neg hx]
      have := ih hnodup.2
      omega

lemma isSelectedOrWorking_iff (s : ApplicationStatus) :
    isSelectedOrWorking s = true ↔
      (s = ApplicationStatus.SELECTED ∨ s = ApplicationStatus.WORKING) := by
  cases s <;> simp [isSelectedOrWorking]

/-- C1: when at least 3 other applications of the job are already
selected/working, a transition of this application into selected or
working fails with HTTP 400 (no state is produced, so neither the
application's nor the job's status changes); and every successful
`change_application_status` call, as well as every `post_apply` call,
preserves the invariant that at most 3 applications of any job are
simultaneously in `{selected, working}`. -/
theorem C1_selected_working_cap (now : Nat) (user : User) (jobs : List Job)
    (apps : List Application) (aid : String) (ns : ApplicationStatus)
    (app : Application) (job : Job)
    (hnodupA : (apps.map Application.id).Nodup)
    (happ : apps.find? (fun a => a.id == aid) = some app)
    (hjob : jobs.find? (fun j =>
      j.id == app.job_id && j.employer_id == user.id) = some job) :
    ((ns = ApplicationStatus.SELECTED ∨ ns = ApplicationStatus.WORKING) →
      3 ≤ selectedOthersCount apps job.id aid →
      change_application_status now user jobs apps aid ns = .error 400) ∧
    (∀ jobs' apps' notifs r,
      change_application_status now user jobs apps aid ns =
        .ok (jobs', apps', notifs, r) →
      ∀ jid, selectedCount apps jid ≤ 3 → selectedCount apps' jid ≤ 3) ∧
    (∀ job_id cover new_id jid, selectedCount apps jid ≤ 3 →
      selectedCount
        (post_apply now user jobs apps job_id cover new_id).2.2.1 jid ≤ 3) := by
  have happmem : app ∈ apps := List.mem_of_find?_eq_some happ
  have happid : app.id = aid := by
    have := List.find?_some happ
    simpa using this
  have hjobid : job.id = app.job_id := by
    have := List.find?_some hjob
    simp only [Bool.and_eq_true, beq_iff_eq] at this
    exact this.1
  refine ⟨?_, ?_, ?_⟩
  · intro hns hcount
    simp only [change_application_status, happ, hjob]
    rw [if_pos ⟨hns, hcount⟩]
  · intro jobs' apps' notifs r heq jid hle
    simp only [change_application_status, happ, hjob] at heq
    by_cases hguard :
        (ns = ApplicationStatus.SELECTED ∨ ns = ApplicationStatus.WORKING) ∧
          selectedOthersCount apps job.id aid ≥ 3
    · rw [if_pos hguard] at heq
      cases heq
    · rw [if_neg hguard] at heq
      simp only [Except.ok.injEq, Prod.mk.injEq] at heq
      obtain ⟨-, happs', -, -⟩ := heq
      rw [← happs']
      unfold selectedCount at hle ⊢
      rw [List.countP_map]
      by_cases hsw : isSelectedOrWorking ns = true
      · by_cases hjid : jid = job.id
        · subst hjid
          have hb := countP_le_add_of_or
            ((fun a => a.job_id == job.id && isSelectedOrWorking a.status) ∘
              (fun a => if a.id == aid then { a with status := ns } else a))
            (fun a => a.job_id == job.id && isSelectedOrWorking a.status &&
              a.id != aid)
            (fun a => a.id == aid) apps ?_
          · have hothers : apps.countP (fun a => a.job_id == job.id &&
                isSelectedOrWorking a.status && a.id != aid) ≤ 2 := by
              have hnot : ¬ selectedOthersCount apps job.id aid ≥ 3 := by
                intro hge
                exact hguard ⟨(isSelectedOrWorking_iff ns).mp hsw, hge⟩
              unfold selectedOthersCount at hnot
              omega
            have hid1 := countP_app_id_le_one aid apps hnodupA
            omega
          · intro a _ hf
            by_cases haid : (a.id == aid) = true
            · exact Or.inr haid
            · left
              simp only [Function.comp_apply, if_neg haid] at hf
              rw [Bool.and_eq_true] at hf
              have hbne : (a.id != aid) = true := by
                simp only [bne]
                rw [Bool.not_eq_true']
                exact Bool.not_eq_true _ ▸ (by simpa using haid)
              rw [Bool.and_eq_true, Bool.and_eq_true]
              exact ⟨⟨hf.1, hf.2⟩, hbne⟩
        · refine le_trans (List.countP_mono_left ?_) hle
          intro a ha hf
          by_cases haid : (a.id == aid) = true
          · exfalso
            have haeq : a = app := by
              apply List.inj_on_of_nodup_map hnodupA ha happmem
              rw [beq_iff_eq.mp haid, happid]
            subst haeq
            simp only [Function.comp_apply, if_pos haid] at hf
            rw [Bool.and_eq_true] at hf
            have : a.job_id = jid := by simpa using hf.1
            exact hjid (by rw [hjobid, ← this])
          · simpa only [Function.comp_apply, if_neg haid] using hf
      · refine le_trans (List.countP_mono_left ?_) hle
        intro a _ hf
        by_cases haid : (a.id == aid) = true
        · exfalso
          simp only [Function.comp_apply, if_pos haid] at hf
          rw [Bool.and_eq_true] at hf
          exact hsw hf.2
        · simpa only [Function.comp_apply, if_neg haid] using hf
  · intro job_id cover new_id jid hle
    by_cases hrole : user.user_type ≠ UserType.RECRUITER
    · simp only [post_apply, if_pos hrole]
      exact hle
    · cases hjf : jobs.find? (fun j => j.id == job_id) with
      | none =>
        simp only [post_apply, hjf, if_neg hrole]
        exact hle
      | some job2 =>
        by_cases hopen : job2.status ≠ JobStatus.OPEN
        · simp only [post_apply, hjf, if_neg hrole, if_pos hopen]
          exact hle
        · by_cases hcap : applicationsCount apps job_id ≥ job2.max_applications
          · simp only [post_apply, hjf, if_neg hrole, if_neg hopen, if_pos hcap]
            exact hle
          · cases hdf : apps.find? (fun a =>
                a.job_id == job_id && a.recruiter_id == user.id) with
            | some x =>
              have hdfS : (apps.find? (fun a =>
                  a.job_id == job_id && a.recruiter_id == user.id)).isSome
                  = true := by rw [hdf]; rfl
              simp only [post_apply, hjf, if_neg hrole, if_neg hopen,
                if_neg hcap, if_pos hdfS]
              exact hle
            | none =>
              have hdfN : ¬ (apps.find? (fun a =>
                  a.job_id == job_id && a.recruiter_id == user.id)).isSome
                  = true := by rw [hdf]; simp
              simp only [post_apply, hjf, if_neg hrole, if_neg hopen,
                if_neg hcap, if_neg hdfN]
              show selectedCount
                (apps ++ [({ id := new_id, job_id := job_id, recruiter_id := user.id, cover_letter := cover, status := ApplicationStatus.PENDING } : Application)])
                jid ≤ 3
              unfold selectedCount at hle ⊢
              rw [List.countP_append]
              have : ([({ id := new_id, job_id := job_id, recruiter_id := user.id, cover_letter := cover, status := ApplicationStatus.PENDING } : Application)]).countP
                  (fun a => a.job_id == jid && isSelectedOrWorking a.status)
                  = 0 := by
                simp [List.countP_cons, isSelectedOrWorking]
              omega

def c1Emp : User :=
  { id := "e1", email := "e@x", name := "Emp", user_type := .EMPLOYER }

def c1Job : Job :=
  { id := "j1", employer_id := "e1", moderator_id := none, title := "T"
    salary_min := 100, salary_max := 200, max_applications := 3
    status := .IN_PROGRESS, status_reason := ""
    moderated_at := none, moderation_comment := ""
    avg_time_to_fill := none, filled_at := none, created_at := 0 }

def c1A1 : Application :=
  { id := "a1", job_id := "j1", recruiter_id := "r1", cover_letter := "cv"
    status := .SELECTED }

def c1A2 : Application :=
  { id := "a2", job_id := "j1", recruiter_id := "r2", cover_letter := "cv"
    status := .WORKING }

def c1A3 : Application :=
  { id := "a3", job_id := "j1", recruiter_id := "r3", cover_letter := "cv"
    status := .SELECTED }

def c1A4 : Application :=
  { id := "a4", job_id := "j1", recruiter_id := "r4", cover_letter := "cv"
    status := .PENDING }

/-- Witness for C1: with 3 applications of job j1 already
selected/working, selecting a 4th fails with HTTP 400. -/
theorem C1_selected_working_cap_witness :
    change_application_status 0 c1Emp [c1Job] [c1A1, c1A2, c1A3, c1A4]
      "a4" ApplicationStatus.SELECTED = .error 400 :=
  (C1_selected_working_cap 0 c1Emp [c1Job] [c1A1, c1A2, c1A3, c1A4]
      "a4" ApplicationStatus.SELECTED c1A4 c1Job (by decide) rfl rfl).1
    (Or.inl rfl) (by decide)
